import Mathlib

/-!
Verification of the `bricks` logging facade (`src/bricks/log.py` and
`src/bricks/debug.py`) against its natural-language specification.

The Python code is shallowly embedded: the process-wide `logging` backend
state (root handler list, root minimum level, structlog configuration)
becomes an explicit `LogState` record threaded through `init` and `logger`;
the environment facts the code consults (`sys.stdout.isatty()`, the
monotone `time.perf_counter` clock, the wrapped callable itself) become
explicit parameters; `raise` becomes `Except.error`. Since the only
logger the decorators can resolve is a stdlib `logging.Logger`
(`log.LoggerType` collapses to `logging.Logger` and `log.logger` returns
`logging.getLogger(name)`), `logger.debug(msg, **kwargs)` is embedded
with the stdlib semantics: no record when `DEBUG` is not enabled, and a
`TypeError` from `Logger._log` on keyword arguments outside its
signature when it is.
-/

namespace Bricks

namespace Log

/-- Numeric level constants of the Python `logging` module. -/
def DEBUG : Int := 10

def INFO : Int := 20

def WARNING : Int := 30

/-- The structlog processors appearing in `shared_processors` in
`log.py` lines 55-72, in source order. -/
inductive Processor where
  | addLogLevel
  | addLoggerName
  | mergeContextvars
  | positionalArgumentsFormatter
  | stackInfoRenderer
  | callsiteParameterAdder
  | formatExcInfo
  | timeStamper
  | unicodeDecoder
  deriving DecidableEq, Repr

/-- `shared_processors`: the pipeline applied to every event. -/
def sharedProcessors : List Processor :=
  [Processor.addLogLevel, Processor.addLoggerName, Processor.mergeContextvars,
   Processor.positionalArgumentsFormatter, Processor.stackInfoRenderer,
   Processor.callsiteParameterAdder, Processor.formatExcInfo,
   Processor.timeStamper, Processor.unicodeDecoder]

/-- The renderer selected in `init` depending on `sys.stdout.isatty()`:
`console` is `structlog.dev.ConsoleRenderer(colors=True)`, `json` is
`dict_tracebacks` followed by `JSONRenderer`. -/
inductive Renderer where
  | console
  | json
  deriving DecidableEq, Repr

/-- The `structlog.stdlib.ProcessorFormatter` built in `init`:
`foreign_pre_chain=shared_processors` and the renderer chain. -/
structure Formatter where
  foreignPreChain : List Processor
  renderer : Renderer
  deriving DecidableEq, Repr

/-- A `logging.StreamHandler(sys.stdout)` carrying its formatter. -/
structure Handler where
  formatter : Formatter
  deriving DecidableEq, Repr

/-- The global `structlog.configure(...)` state set by `init`:
the processor list and the filtering level of the
`make_filtering_bound_logger(log_level)` wrapper class. -/
structure StructlogConfig where
  processors : List Processor
  filterLevel : Int
  deriving DecidableEq, Repr

/-- The process-wide mutable backend: the root logger's handler list and
minimum level, and the optional structlog configuration. -/
structure LogState where
  handlers : List Handler
  rootLevel : Int
  structlogConfig : Option StructlogConfig
  deriving DecidableEq, Repr

/-- Backend state at process start: no handler attached to the root
logger, root level at the stdlib default `WARNING`, structlog not yet
configured. -/
def initialState : LogState := ⟨[], WARNING, none⟩

/-- A named logger handle, as returned by `logging.getLogger(name)`:
a stateless proxy identified by its name. -/
structure LoggerHandle where
  name : String
  deriving DecidableEq, Repr

/-- `logging.getLogger().hasHandlers()` for the root logger: whether the
root handler list is non-empty (the root logger has no ancestors). -/
def hasHandlers (s : LogState) : Bool := !s.handlers.isEmpty

/-- `level(debug)` from `log.py` lines 131-137:
`logging.DEBUG if debug else logging.INFO`. -/
def level (debug : Bool) : Int := if debug then DEBUG else INFO

/-- `init(debug)` from `log.py` lines 42-112. Returns early when the root
logger already has handlers; otherwise configures structlog with the
shared processors and a filtering bound logger at `level(debug)`, picks
the renderer from `sys.stdout.isatty()` (the `isatty` parameter), builds
the formatter and stream handler, appends the handler to the root
logger's handlers and sets the root level. -/
def init (debug : Bool) (isatty : Bool) (s : LogState) : LogState :=
  if hasHandlers s then s
  else
    let log_level := level debug
    let cfg : StructlogConfig := ⟨sharedProcessors, log_level⟩
    let renderer := if isatty then Renderer.console else Renderer.json
    let handler : Handler := ⟨⟨sharedProcessors, renderer⟩⟩
    ⟨s.handlers ++ [handler], log_level, some cfg⟩

/-- `logger(name)` from `log.py` lines 115-128: lazily runs `init()` when
the root logger has no handlers, defaults a missing name to the module's
`__package__` (the constant string "bricks", since `log.py` lives in the
`bricks` package), and returns `logging.getLogger(name)` together with
the resulting backend state. -/
def logger (name : Option String) (isatty : Bool) (s : LogState) :
    LoggerHandle × LogState :=
  let s' := if !hasHandlers s then init false isatty s else s
  (⟨name.getD "bricks"⟩, s')

end Log

namespace Debug

/-- The reflective surface of a Python callable that `callable_name`
probes: whether the object exposes a `__qualname__` and/or `__name__`
attribute, and their values. -/
structure PyCallable where
  qualname : Option String
  name : Option String
  deriving DecidableEq, Repr

/-- `callable_name(func)` from `debug.py` lines 14-25: the qualified name
when the attribute is present, else the plain name when present, else the
literal string "unknown name". Total, hence never raises. -/
def callable_name (func : PyCallable) : String :=
  match func.qualname with
  | some q => q
  | none =>
    match func.name with
    | some n => n
    | none => "unknown name"

/-- A structured value attached to an emitted event: a string, a number
(timestamps and durations), a positional-argument tuple, a
keyword-argument dict, or a wrapped-call result value. -/
inductive FieldVal (V : Type) where
  | str : String → FieldVal V
  | num : Int → FieldVal V
  | argsF : List V → FieldVal V
  | kwargsF : List (String × V) → FieldVal V
  | val : V → FieldVal V

/-- One log record created by the backend for a `logger.debug` call:
its level, message, and keyword fields in source order. -/
structure Event (V : Type) where
  lvl : Int
  msg : String
  fields : List (String × FieldVal V)

/-- A raised `TypeError` with its message. -/
structure TypeErrorExn where
  msg : String
  deriving DecidableEq, Repr

/-- The keyword parameters of `logging.Logger._log` besides the
positional ones: every other keyword passed to `logging.Logger.debug`
is forwarded to `_log` and raises `TypeError` there. -/
def acceptedLogKwargs : List String :=
  ["exc_info", "extra", "stack_info", "stacklevel"]

/-- `logging.Logger.debug(msg, **kwargs)` on a handle returned by
`logging.getLogger(name)`: such a handle's own level is `NOTSET`, so its
effective level is the root level `rootLevel`. When `DEBUG` is not
enabled (`rootLevel > DEBUG`) the call returns at the `isEnabledFor`
guard — no record is created and the keywords are never inspected. When
`DEBUG` is enabled the keywords are forwarded to `Logger._log`, whose
signature accepts only `acceptedLogKwargs`; the first keyword outside
that signature raises `TypeError`, otherwise one record is created. -/
def stdlibDebug {V : Type} (rootLevel : Int) (msg : String)
    (fields : List (String × FieldVal V)) :
    Except TypeErrorExn (List (Event V)) :=
  if rootLevel ≤ Log.DEBUG then
    match fields.find? (fun f => !acceptedLogKwargs.contains f.1) with
    | some f =>
        Except.error ⟨"_log() got an unexpected keyword argument " ++ f.1⟩
    | none => Except.ok [⟨Log.DEBUG, msg, fields⟩]
  else Except.ok []

/-- The outcome of invoking a decorated callable: normal return, the
wrapped callable's own exception propagating, or a `TypeError` escaping
from `Logger._log` inside the logging backend. -/
inductive PyOutcome (E V : Type) where
  | ok (v : V)
  | raised (e : E)
  | typeError (t : TypeErrorExn)

variable {V E : Type}

/-- The inner `wrapper` closure of `timeit` (`debug.py` lines 55-69),
executed against the stdlib `logging.Logger` that the decorator's logger
resolution always produces (`log.LoggerType` is `logging.Logger`, and a
supplied logger of any other type is replaced by `log.logger(name)`,
i.e. `logging.getLogger(name)`). `impl` is the wrapped callable on
`*args, **kwargs`; `clock` is `time.perf_counter`, read at tick `t`
before the call and at tick `t + 1` after it; `rootLevel` is the backend
root level governing `logger.debug`. Returns the invocation outcome and
the records the backend actually created. -/
def timeitWrapper (name : String)
    (impl : List V → List (String × V) → Except E V)
    (clock : Nat → Int) (t : Nat) (rootLevel : Int)
    (args : List V) (kwargs : List (String × V)) :
    PyOutcome E V × List (Event V) :=
  let start_time := clock t
  match impl args kwargs with
  | Except.error e => (PyOutcome.raised e, [])
  | Except.ok result =>
      match stdlibDebug rootLevel "Method timed"
        [("name", FieldVal.str name),
         ("duration", FieldVal.num (clock (t + 1) - start_time)),
         ("start_time", FieldVal.num start_time)] with
      | Except.error te => (PyOutcome.typeError te, [])
      | Except.ok evs => (PyOutcome.ok result, evs)

/-- The inner `wrapper` closure of `log_data` (`debug.py` lines 95-106),
executed against the stdlib `logging.Logger` the decorator resolves (see
`timeitWrapper`): the first `logger.debug` call carrying name/args/kwargs
runs before the wrapped callable, the second carrying name/result runs
after a normal return. -/
def log_dataWrapper (name : String)
    (impl : List V → List (String × V) → Except E V)
    (rootLevel : Int)
    (args : List V) (kwargs : List (String × V)) :
    PyOutcome E V × List (Event V) :=
  match stdlibDebug rootLevel "Decorated method called, input logged"
    [("name", FieldVal.str name), ("args", FieldVal.argsF args),
     ("kwargs", FieldVal.kwargsF kwargs)] with
  | Except.error te => (PyOutcome.typeError te, [])
  | Except.ok evs1 =>
      match impl args kwargs with
      | Except.error e => (PyOutcome.raised e, evs1)
      | Except.ok result =>
          match stdlibDebug rootLevel "Decorated method results logged"
            [("name", FieldVal.str name),
             ("result", FieldVal.val result)] with
          | Except.error te => (PyOutcome.typeError te, evs1)
          | Except.ok evs2 => (PyOutcome.ok result, evs1 ++ evs2)

/-- The positional `func` argument of `timeit`/`log_data`: absent
(`None`, the default), a callable with its name attributes and body, or
some non-callable value. -/
inductive FuncArg (V E : Type) where
  | noneArg
  | callable (c : PyCallable) (impl : List V → List (String × V) → Except E V)
  | notCallable (v : V)

/-- The message of the `TypeError` raised by `timeit` on a non-callable
positional argument (`debug.py` lines 45-48, an implicitly concatenated
string literal). -/
def timeitTypeErrorMsg : String :=
  "`func` is not Callable, was this timeit-decorator called with non-keyword arguments?"

/-- The message of the `TypeError` raised by `log_data` on a non-callable
positional argument (`debug.py` lines 85-88). -/
def log_dataTypeErrorMsg : String :=
  "`func` is not Callable, was this log_data-decorator called with non-keyword arguments?"

/-- The decorated callable built by a successful decoration: the closure
data captured by the inner `wrapper` — the resolved name, the resolved
logger, and the original callable body. -/
structure Wrapped (V E : Type) where
  name : String
  logger : Log.LoggerHandle
  impl : List V → List (String × V) → Except E V

/-- What a call to `timeit`/`log_data` returns when it does not raise:
`partial(timeit, logger=logger)` awaiting the function (when `func` is
`None`), or the wrapped callable. -/
inductive DecorResult (V E : Type) where
  | deferred (loggerArg : Option Log.LoggerHandle)
  | wrapped (w : Wrapped V E)

/-- `timeit(func, *, logger)` from `debug.py` lines 28-69, decoration
logic only. `loggerArg` is `None` or a `logging.Logger` handle (a handle
is always truthy and of `log.LoggerType`, so a supplied handle is kept;
otherwise `log.logger(name)` resolves one, lazily initialising the
backend — hence the state threading). Raises `TypeError` on a
non-callable `func` before resolving anything. -/
def timeit (func : FuncArg V E) (loggerArg : Option Log.LoggerHandle)
    (isatty : Bool) (s : Log.LogState) :
    Except TypeErrorExn (DecorResult V E × Log.LogState) :=
  match func with
  | FuncArg.noneArg => Except.ok (DecorResult.deferred loggerArg, s)
  | FuncArg.notCallable _ => Except.error ⟨timeitTypeErrorMsg⟩
  | FuncArg.callable c impl =>
      let name := callable_name c
      match loggerArg with
      | some L => Except.ok (DecorResult.wrapped ⟨name, L, impl⟩, s)
      | none =>
          let hs := Log.logger (some name) isatty s
          Except.ok (DecorResult.wrapped ⟨name, hs.1, impl⟩, hs.2)

/-- The partially-applied form `partial(timeit, logger=loggerArg)`
returned by `timeit` when `func` is absent: applying it to a function
re-invokes `timeit` with the captured logger. -/
def timeitDeferred (loggerArg : Option Log.LoggerHandle) (func : FuncArg V E)
    (isatty : Bool) (s : Log.LogState) :
    Except TypeErrorExn (DecorResult V E × Log.LogState) :=
  timeit func loggerArg isatty s

/-- `log_data(func, *, logger)` from `debug.py` lines 72-106, decoration
logic only; identical shape to `timeit` up to the wrapper body and the
`TypeError` message. -/
def log_data (func : FuncArg V E) (loggerArg : Option Log.LoggerHandle)
    (isatty : Bool) (s : Log.LogState) :
    Except TypeErrorExn (DecorResult V E × Log.LogState) :=
  match func with
  | FuncArg.noneArg => Except.ok (DecorResult.deferred loggerArg, s)
  | FuncArg.notCallable _ => Except.error ⟨log_dataTypeErrorMsg⟩
  | FuncArg.callable c impl =>
      let name := callable_name c
      match loggerArg with
      | some L => Except.ok (DecorResult.wrapped ⟨name, L, impl⟩, s)
      | none =>
          let hs := Log.logger (some name) isatty s
          Except.ok (DecorResult.wrapped ⟨name, hs.1, impl⟩, hs.2)

/-- The partially-applied form `partial(log_data, logger=loggerArg)`
returned by `log_data` when `func` is absent. -/
def log_dataDeferred (loggerArg : Option Log.LoggerHandle) (func : FuncArg V E)
    (isatty : Bool) (s : Log.LogState) :
    Except TypeErrorExn (DecorResult V E × Log.LogState) :=
  log_data func loggerArg isatty s

end Debug

end Bricks

open Bricks

/-- Claim C1: `init` is idempotent — whenever the backend root logger
already has at least one handler attached, `init debug` returns the state
unchanged (no handler added, level and configuration untouched); and
starting from a state with no handler, two `init` calls in sequence leave
exactly one handler attached. -/
theorem init_idempotent (d d1 d2 tty tty1 tty2 : Bool) (s s0 : Log.LogState)
    (h : s.handlers ≠ []) (h0 : s0.handlers = []) :
    Log.init d tty s = s ∧
    (Log.init d2 tty2 (Log.init d1 tty1 s0)).handlers.length = 1 := by
  constructor
  · simp [Log.init, Log.hasHandlers, h]
  · simp [Log.init, Log.hasHandlers, h0]

/-- Witness for C1 at concrete states: the once-initialised state has a
handler, the fresh state has none, a second `init` is a no-op there, and
two `init` calls from fresh leave exactly one handler. -/
theorem init_idempotent_witness :
    (Log.init false true Log.initialState).handlers ≠ [] ∧
    Log.initialState.handlers = [] ∧
    Log.init true true (Log.init false true Log.initialState) =
      Log.init false true Log.initialState ∧
    (Log.init true false (Log.init false true Log.initialState)).handlers.length = 1 := by
  have h := init_idempotent true false true true true false
    (Log.init false true Log.initialState) Log.initialState (by decide) (by decide)
  exact ⟨by decide, by decide, h.1, h.2⟩

/-- Claim C2: when the backend has no handler, `logger name` triggers
exactly one `init` with its default `debug := false` (the resulting state
is `init false` applied once: one handler, level `INFO = level false`)
and returns a handle bound to exactly `name`; when a handler is attached,
`logger name` leaves the state untouched. -/
theorem logger_lazy_init (n : String) (tty tty2 : Bool) (s s2 : Log.LogState)
    (h : s.handlers = []) (h2 : s2.handlers ≠ []) :
    Log.logger (some n) tty s = (⟨n⟩, Log.init false tty s) ∧
    (Log.logger (some n) tty s).2.handlers.length = 1 ∧
    (Log.logger (some n) tty s).2.rootLevel = Log.level false ∧
    Log.logger (some n) tty2 s2 = (⟨n⟩, s2) := by
  refine ⟨?_, ?_, ?_, ?_⟩
  · simp [Log.logger, Log.hasHandlers, h]
  · simp [Log.logger, Log.init, Log.hasHandlers, h]
  · simp [Log.logger, Log.init, Log.hasHandlers, h]
  · simp [Log.logger, Log.hasHandlers, h2]

/-- Witness for C2 at concrete states: the fresh state and the
once-initialised state. -/
theorem logger_lazy_init_witness :
    Log.initialState.handlers = [] ∧
    (Log.init false true Log.initialState).handlers ≠ [] ∧
    Log.logger (some "x") true Log.initialState =
      (⟨"x"⟩, Log.init false true Log.initialState) ∧
    (Log.logger (some "x") true Log.initialState).2.rootLevel = Log.level false ∧
    Log.logger (some "x") false (Log.init false true Log.initialState) =
      (⟨"x"⟩, Log.init false true Log.initialState) := by
  have h := logger_lazy_init "x" true false Log.initialState
    (Log.init false true Log.initialState) (by decide) (by decide)
  exact ⟨by decide, by decide, h.1, h.2.2.1, h.2.2.2⟩

/-- Claim C6 counterexample: `logger` with `name` omitted returns a
handle bound to the constant package identifier "bricks" of the module
defining `logger` itself, which differs from the enclosing package of a
caller living in any other package (here "mypkg"); so the handle is not
bound to the caller's enclosing package/module identifier. -/
theorem logger_default_name_cex :
    (Log.logger none true Log.initialState).1.name = "bricks" ∧
    ("bricks" : String) ≠ "mypkg" :=
  ⟨rfl, by decide⟩

/-- Claim C6 (amended): when `logger` is called with `name` omitted, the
returned handle is bound to the fixed package identifier "bricks" — the
`__package__` of the module defining `logger` — regardless of the caller
and of the backend state. -/
theorem logger_default_name (tty : Bool) (s : Log.LogState) :
    (Log.logger none tty s).1 = ⟨"bricks"⟩ := rfl

/-- Claim C7: `level` is a pure function of its boolean argument —
`level true` is the `DEBUG` value and `level false` is the `INFO` value
(it is a total Lean function of its argument alone, so it has no side
effects and no state). -/
theorem level_pure : Log.level true = Log.DEBUG ∧ Log.level false = Log.INFO :=
  ⟨rfl, rfl⟩

/-- Claim C10: once the backend is initialised by any path, a later
`init true` leaves the state — in particular the root minimum level —
unchanged; a process whose first backend touch was `logger "x"` sits at
`INFO` and no later `init` call, whatever its `debug` argument, changes
that. The `debug` argument only has effect on the very first
initialisation. -/
theorem init_debug_first_only (d tty tty2 tty3 : Bool) (s : Log.LogState)
    (h : s.handlers ≠ []) :
    Log.init true tty s = s ∧
    (Log.init true tty s).rootLevel = s.rootLevel ∧
    (Log.logger (some "x") tty2 Log.initialState).2.rootLevel = Log.INFO ∧
    (Log.init d tty3 ((Log.logger (some "x") tty2 Log.initialState).2)).rootLevel
      = Log.INFO := by
  have h1 : Log.init true tty s = s := by simp [Log.init, Log.hasHandlers, h]
  refine ⟨h1, by rw [h1], ?_, ?_⟩
  · simp [Log.logger, Log.init, Log.hasHandlers, Log.initialState, Log.level]
  · simp [Log.logger, Log.init, Log.hasHandlers, Log.initialState, Log.level]

/-- Witness for C10 at a concrete initialised state. -/
theorem init_debug_first_only_witness :
    (Log.init false true Log.initialState).handlers ≠ [] ∧
    Log.init true true (Log.init false true Log.initialState) =
      Log.init false true Log.initialState ∧
    (Log.init true false ((Log.logger (some "x") true Log.initialState).2)).rootLevel
      = Log.INFO := by
  have h := init_debug_first_only true true true false
    (Log.init false true Log.initialState) (by decide)
  exact ⟨by decide, h.1, h.2.2.2⟩

/-- Claim C8: `callable_name` returns the qualified name when the value
exposes one, else the plain name when exposed, else the literal string
"unknown name"; it is a total function, so it never raises. -/
theorem callable_name_spec (c : Debug.PyCallable) :
    (∀ q, c.qualname = some q → Debug.callable_name c = q) ∧
    (∀ n, c.qualname = none → c.name = some n → Debug.callable_name c = n) ∧
    (c.qualname = none → c.name = none →
      Debug.callable_name c = "unknown name") := by
  refine ⟨?_, ?_, ?_⟩
  · intro q hq
    simp [Debug.callable_name, hq]
  · intro n hq hn
    simp [Debug.callable_name, hq, hn]
  · intro hq hn
    simp [Debug.callable_name, hq, hn]

/-- Witness for C8 on three concrete values covering the three cases. -/
theorem callable_name_spec_witness :
    Debug.callable_name ⟨some "Outer.f", some "f"⟩ = "Outer.f" ∧
    Debug.callable_name ⟨none, some "g"⟩ = "g" ∧
    Debug.callable_name ⟨none, none⟩ = "unknown name" :=
  ⟨(callable_name_spec ⟨some "Outer.f", some "f"⟩).1 "Outer.f" rfl,
   (callable_name_spec ⟨none, some "g"⟩).2.1 "g" rfl rfl,
   (callable_name_spec ⟨none, none⟩).2.2 rfl rfl⟩

/-- Claim C3 (code-bug evidence): the only logger the `timeit` decorator
can resolve is a stdlib `logging.Logger`, whose `debug()` rejects the
name/duration/start_time keywords inside `_log` whenever `DEBUG` is
enabled. So with a DEBUG-enabled backend (`init true`) a normally
returning callable's result (`7`) is lost to the escaping `TypeError`
and no event is recorded, while with the default `INFO` backend
(`init false`) the result is returned but zero events are recorded —
the claimed one-event behavior occurs in no backend configuration. -/
theorem timeitWrapper_code_bug :
    Debug.timeitWrapper "f"
        (fun _ _ => Except.ok (7 : Int) :
          List Int → List (String × Int) → Except String Int)
        (fun n : Nat => (n : Int)) 0
        (Log.init true true Log.initialState).rootLevel [] [] =
      (Debug.PyOutcome.typeError
        ⟨"_log() got an unexpected keyword argument name"⟩, []) ∧
    Debug.timeitWrapper "f"
        (fun _ _ => Except.ok (7 : Int) :
          List Int → List (String × Int) → Except String Int)
        (fun n : Nat => (n : Int)) 0
        (Log.init false true Log.initialState).rootLevel [] [] =
      (Debug.PyOutcome.ok 7, []) :=
  ⟨rfl, rfl⟩

/-- Claim C4 (code-bug evidence): with a DEBUG-enabled backend the first
`logger.debug(name=..., args=..., kwargs=...)` of the `log_data` wrapper
raises `TypeError` inside `Logger._log` before the wrapped callable is
even invoked — the outcome is the same for every callable body, with
zero events recorded — and with the default `INFO` backend the call
`g(x=5)` returns its result but records zero events; the claimed
two-events-then-result behavior occurs in no backend configuration. -/
theorem log_dataWrapper_code_bug :
    (∀ impl : List Int → List (String × Int) → Except String Int,
      Debug.log_dataWrapper "g" impl
        (Log.init true true Log.initialState).rootLevel [] [("x", 5)] =
      (Debug.PyOutcome.typeError
        ⟨"_log() got an unexpected keyword argument name"⟩, [])) ∧
    Debug.log_dataWrapper "g"
        (fun _ _ => Except.ok (9 : Int) :
          List Int → List (String × Int) → Except String Int)
        (Log.init false true Log.initialState).rootLevel [] [("x", 5)] =
      (Debug.PyOutcome.ok 9, []) :=
  ⟨fun _ => rfl, rfl⟩

/-- Claim C5: passing a non-callable, non-None positional value to
`timeit` or `log_data` raises a `TypeError` at decoration time — the
call yields the error, never a wrapper, and the backend state escapes
untouched. -/
theorem decorator_typeerror {V E : Type} (v : V)
    (loggerArg : Option Log.LoggerHandle) (tty : Bool) (s : Log.LogState) :
    (Debug.timeit (Debug.FuncArg.notCallable v : Debug.FuncArg V E) loggerArg tty s
      = Except.error ⟨Debug.timeitTypeErrorMsg⟩) ∧
    (Debug.log_data (Debug.FuncArg.notCallable v : Debug.FuncArg V E) loggerArg tty s
      = Except.error ⟨Debug.log_dataTypeErrorMsg⟩) :=
  ⟨rfl, rfl⟩

/-- Claim C9: the two decoration shapes agree — `timeit` (resp.
`log_data`) with `func` absent and a logger bound returns its
partially-applied form capturing that logger, and applying this deferred
form to a callable produces exactly the decoration result of the direct
call: the same wrapper (same resolved name, same logger, same body) and
the same backend state. -/
theorem decoration_shapes_agree {V E : Type} (c : Debug.PyCallable)
    (impl : List V → List (String × V) → Except E V)
    (L : Log.LoggerHandle) (tty : Bool) (s : Log.LogState) :
    (Debug.timeit (Debug.FuncArg.noneArg : Debug.FuncArg V E) (some L) tty s
      = Except.ok (Debug.DecorResult.deferred (some L), s)) ∧
    Debug.timeitDeferred (some L) (Debug.FuncArg.callable c impl) tty s
      = Debug.timeit (Debug.FuncArg.callable c impl) (some L) tty s ∧
    Debug.timeit (Debug.FuncArg.callable c impl) (some L) tty s
      = Except.ok (Debug.DecorResult.wrapped ⟨Debug.callable_name c, L, impl⟩, s) ∧
    (Debug.log_data (Debug.FuncArg.noneArg : Debug.FuncArg V E) (some L) tty s
      = Except.ok (Debug.DecorResult.deferred (some L), s)) ∧
    Debug.log_dataDeferred (some L) (Debug.FuncArg.callable c impl) tty s
      = Debug.log_data (Debug.FuncArg.callable c impl) (some L) tty s ∧
    Debug.log_data (Debug.FuncArg.callable c impl) (some L) tty s
      = Except.ok (Debug.DecorResult.wrapped ⟨Debug.callable_name c, L, impl⟩, s) :=
  ⟨rfl, rfl, rfl, rfl, rfl, rfl⟩
